import Mathlib

/-!
Shallow embedding of the PlayLister recommendation engine
(src/app/services/recommender.py), the quiz sampling and feedback upsert
(src/app/services/quiz_service.py) and the scoring configuration
(src/app/config.py).

Conventions of the embedding:
* Python floats are modelled as exact rationals; all score arithmetic in the
  source is addition, multiplication and one division (the mean), so the
  relative order of scores is preserved exactly.
* The per-call random jitter `random.uniform(0, 0.1)` is modelled as an
  explicit jitter argument (a rational per scored song); `random.sample` is
  modelled as an oracle function together with the predicate `IsSampler`,
  which states exactly the guarantees of `random.sample` (a sample of the
  requested size drawn without replacement from the population).
* The stable sort `list.sort(key=..., reverse=True)` is modelled with
  `List.insertionSort` and the flipped comparison: a stable sort is uniquely
  determined by its comparator, so this is extensionally the same function.
* Python truthiness of `song["bpm"]`, `tags` and the genre string is modelled
  explicitly (`None` and `0` and `""` are falsy).
-/

/-- Song record as declared by the repository data model
(`app/models.py`: `id`, `title`, `artist`, `subgenre`, `year : int`,
`tags : str`, `bpm : Optional[int]`). -/
structure Song where
  id : Int
  title : String
  artist : String
  subgenre : String
  year : Int
  tags : String
  bpm : Option Int
deriving DecidableEq

/-- Recommender weights and tolerances of `app/config.py` (class `Config`). -/
structure Config where
  ARTIST_WEIGHT : ℚ
  SUBGENRE_WEIGHT : ℚ
  TAG_WEIGHT : ℚ
  BPM_WEIGHT : ℚ
  ERA_WEIGHT : ℚ
  SEED_ARTIST_WEIGHT : ℚ
  SEED_SUBGENRE_WEIGHT : ℚ
  SEED_TAG_WEIGHT : ℚ
  SEED_BPM_WEIGHT : ℚ
  GENRE_BONUS : ℚ
  BPM_TOLERANCE : Int
  YEAR_TOLERANCE : Int

/-- Default values of `app/config.py`. -/
def defaultConfig : Config where
  ARTIST_WEIGHT := 2
  SUBGENRE_WEIGHT := 1
  TAG_WEIGHT := 1/2
  BPM_WEIGHT := 3/10
  ERA_WEIGHT := 1/5
  SEED_ARTIST_WEIGHT := 1
  SEED_SUBGENRE_WEIGHT := 1
  SEED_TAG_WEIGHT := 1
  SEED_BPM_WEIGHT := 3/10
  GENRE_BONUS := 5
  BPM_TOLERANCE := 8
  YEAR_TOLERANCE := 5

/-- Tag set of a song: `set(song["tags"].split(';')) if song["tags"] else set()`.
A Python string is split at the character level, so the split is modelled on
the character list of the tags string; an empty tags string is falsy and gives
the empty set. -/
def songTags (tags : String) : Finset (List Char) :=
  if tags = "" then ∅ else (tags.toList.splitOn ';').toFinset

/-- Python truthiness of an optional integer column (`None` and `0` are falsy). -/
def intTruthy : Option Int → Bool
  | none => false
  | some b => !(b == 0)

/-- The list `[s["bpm"] for s in liked_songs if s["bpm"]]`. -/
def likedBpms (liked : List Song) : List Int :=
  liked.filterMap (fun s => if intTruthy s.bpm then s.bpm else none)

/-- Arithmetic mean used for the BPM proximity term:
`sum(liked_bpms) / len(liked_bpms)`. -/
def bpmMean (liked : List Song) : ℚ :=
  ((likedBpms liked).map (fun b => (b : ℚ))).sum / ((likedBpms liked).length : ℚ)

/-- Arithmetic mean used for the era proximity term:
`sum(liked_years) / len(liked_years)`. -/
def yearMean (liked : List Song) : ℚ :=
  (liked.map (fun s => (s.year : ℚ))).sum / (liked.length : ℚ)

/-- Artist affinity term of `score_song`: `+ARTIST_WEIGHT` per liked song with
the same artist, `-ARTIST_WEIGHT` per disliked song with the same artist. -/
def artistTerm (cfg : Config) (song : Song) (liked disliked : List Song) : ℚ :=
  cfg.ARTIST_WEIGHT * (liked.countP (fun l => song.artist == l.artist) : ℚ)
    - cfg.ARTIST_WEIGHT * (disliked.countP (fun l => song.artist == l.artist) : ℚ)

/-- Subgenre affinity term of `score_song`. -/
def subgenreTerm (cfg : Config) (song : Song) (liked disliked : List Song) : ℚ :=
  cfg.SUBGENRE_WEIGHT * (liked.countP (fun l => song.subgenre == l.subgenre) : ℚ)
    - cfg.SUBGENRE_WEIGHT * (disliked.countP (fun l => song.subgenre == l.subgenre) : ℚ)

/-- Tag overlap term of `score_song`: for each liked song,
`len(song_tags & liked_tags) * TAG_WEIGHT`. -/
def tagTerm (cfg : Config) (song : Song) (liked : List Song) : ℚ :=
  (liked.map (fun l => ((songTags song.tags ∩ songTags l.tags).card : ℚ) * cfg.TAG_WEIGHT)).sum

/-- BPM proximity term of `score_song`: guarded by `song["bpm"]` truthiness and
a nonempty liked list, then by a nonempty list of truthy liked BPMs; adds
`BPM_WEIGHT` when the candidate BPM is within `BPM_TOLERANCE` of the mean. -/
def bpmTerm (cfg : Config) (song : Song) (liked : List Song) : ℚ :=
  if intTruthy song.bpm ∧ liked ≠ [] then
    if likedBpms liked ≠ [] then
      if |((song.bpm.getD 0 : Int) : ℚ) - bpmMean liked| ≤ (cfg.BPM_TOLERANCE : ℚ) then
        cfg.BPM_WEIGHT
      else 0
    else 0
  else 0

/-- Era proximity term of `score_song`: guarded only by a nonempty liked list;
adds `ERA_WEIGHT` when the candidate year is within `YEAR_TOLERANCE` of the
mean liked year. -/
def eraTerm (cfg : Config) (song : Song) (liked : List Song) : ℚ :=
  if liked ≠ [] then
    if |((song.year : Int) : ℚ) - yearMean liked| ≤ (cfg.YEAR_TOLERANCE : ℚ) then
      cfg.ERA_WEIGHT
    else 0
  else 0

/-- Seed similarity term of `score_song` (only when a seed song is supplied). -/
def seedTerm (cfg : Config) (song : Song) : Option Song → ℚ
  | none => 0
  | some seed =>
      (if song.artist == seed.artist then cfg.SEED_ARTIST_WEIGHT else 0)
        + (if song.subgenre == seed.subgenre then cfg.SEED_SUBGENRE_WEIGHT else 0)
        + ((songTags song.tags ∩ songTags seed.tags).card : ℚ) * cfg.SEED_TAG_WEIGHT
        + (if intTruthy song.bpm ∧ intTruthy seed.bpm
              ∧ |((song.bpm.getD 0 : Int) : ℚ) - ((seed.bpm.getD 0 : Int) : ℚ)|
                  ≤ (cfg.BPM_TOLERANCE : ℚ)
           then cfg.SEED_BPM_WEIGHT else 0)

/-- Score of `RecommenderService.score_song` before the final jitter addition.
The sequential `score += ...` statements of the source are grouped into one
sum per feature, which is the same rational because addition commutes. -/
def baseScore (cfg : Config) (song : Song) (liked disliked : List Song)
    (seed : Option Song) : ℚ :=
  artistTerm cfg song liked disliked + subgenreTerm cfg song liked disliked
    + tagTerm cfg song liked + bpmTerm cfg song liked + eraTerm cfg song liked
    + seedTerm cfg song seed

/-- `RecommenderService.score_song`, with the draw of
`random.uniform(0, 0.1)` passed in as the explicit jitter argument `j`. -/
def score_song (cfg : Config) (song : Song) (liked disliked : List Song)
    (seed : Option Song) (j : ℚ) : ℚ :=
  baseScore cfg song liked disliked seed + j

/-- The set `disliked_song_ids` built at the top of
`generate_recommendations`. -/
def dislikedIds (disliked : List Song) : List Int :=
  disliked.map (fun s => s.id)

/-- Python truthiness of the optional genre string. -/
def strTruthy : Option String → Bool
  | none => false
  | some g => !(g == "")

/-- The list `genre_songs`: songs of the preferred genre, or `[]` when no
(truthy) genre is given. -/
def genreSongs (all_songs : List Song) : Option String → List Song
  | none => []
  | some g => if g = "" then [] else all_songs.filter (fun s => s.subgenre == g)

/-- First scoring pass of `generate_recommendations`: when a (truthy) genre is
given and `genre_songs` is nonempty, every non-disliked genre song is scored
and `GENRE_BONUS` is added. -/
def genrePass (cfg : Config) (all_songs liked disliked : List Song)
    (pg : Option String) (seed : Option Song) (jit : Song → ℚ) : List (Song × ℚ) :=
  if strTruthy pg ∧ genreSongs all_songs pg ≠ [] then
    ((genreSongs all_songs pg).filter (fun s => decide (s.id ∉ dislikedIds disliked))).map
      (fun s => (s, score_song cfg s liked disliked seed (jit s) + cfg.GENRE_BONUS))
  else []

/-- Loop body of the second pass of `generate_recommendations`: a song is
skipped when its id is disliked or already scored, otherwise it is scored
(without bonus) and appended. -/
def scoreStep (cfg : Config) (liked disliked : List Song) (seed : Option Song)
    (jit : Song → ℚ) (acc : List (Song × ℚ)) (song : Song) : List (Song × ℚ) :=
  if song.id ∈ dislikedIds disliked ∨ acc.any (fun p => p.1.id == song.id) then acc
  else acc ++ [(song, score_song cfg song liked disliked seed (jit song))]

/-- The full `scored_songs` list of `generate_recommendations`: the genre pass
followed by the fill pass over all songs. -/
def scoredPool (cfg : Config) (all_songs liked disliked : List Song)
    (pg : Option String) (seed : Option Song) (jit : Song → ℚ) : List (Song × ℚ) :=
  all_songs.foldl (scoreStep cfg liked disliked seed jit)
    (genrePass cfg all_songs liked disliked pg seed jit)

/-- Descending order on scored candidates, used by
`scored_songs.sort(key=lambda x: x[1], reverse=True)`. -/
def scoreDesc (a b : Song × ℚ) : Prop := b.2 ≤ a.2

instance : DecidableRel scoreDesc := fun a b => inferInstanceAs (Decidable (b.2 ≤ a.2))

/-- Stable descending sort of the scored candidates. Python uses a stable sort;
a stable sort is determined uniquely by its comparator, so the structurally
recursive insertion sort computes the same list. -/
def sortScored (l : List (Song × ℚ)) : List (Song × ℚ) :=
  l.insertionSort scoreDesc

/-- `RecommenderService.generate_recommendations`: score, sort descending,
take the first `count` songs. -/
def generate_recommendations (cfg : Config) (all_songs liked disliked : List Song)
    (count : ℕ) (pg : Option String) (seed : Option Song) (jit : Song → ℚ) : List Song :=
  ((sortScored (scoredPool cfg all_songs liked disliked pg seed jit)).take count).map
    (fun p => p.1)

/-- Contract of `random.sample(population, k)` for `k ≤ len(population)`:
the result has length `k` and is a permutation of a sublist of the population
(a draw without replacement). Uniformity of the distribution is a property of
the random source and is not representable in this embedding. -/
def IsSampler (sample : List Song → ℕ → List Song) : Prop :=
  ∀ pop k, k ≤ pop.length → (sample pop k).length = k ∧ (sample pop k).Subperm pop

/-- `RecommenderService.generate_cold_start_playlist`, with `random.sample`
passed in as the oracle `sample`. -/
def generate_cold_start_playlist (all_songs : List Song) (count : ℕ)
    (pg : Option String) (sample : List Song → ℕ → List Song) : List Song :=
  match pg with
  | some g =>
    if g = "" then sample all_songs (min count all_songs.length)
    else
      let gs := all_songs.filter (fun s => s.subgenre == g)
      if gs.length ≥ count then sample gs count
      else
        let remaining := all_songs.filter (fun s => decide (s ∉ gs))
        let needed := count - gs.length
        if needed > 0 ∧ remaining ≠ [] then
          gs ++ sample remaining (min needed remaining.length)
        else gs
  | none => sample all_songs (min count all_songs.length)

/-- The unrated songs of `QuizService.get_quiz_songs`. -/
def unratedSongs (all_songs : List Song) (rated_song_ids : List Int) : List Song :=
  all_songs.filter (fun s => decide (s.id ∉ rated_song_ids))

/-- The rated songs of `QuizService.get_quiz_songs`. -/
def ratedSongs (all_songs : List Song) (rated_song_ids : List Int) : List Song :=
  all_songs.filter (fun s => decide (s.id ∈ rated_song_ids))

/-- `QuizService.get_quiz_songs` over the fetched song rows and the set of
already rated song ids; the `ValueError` raised when fewer than `n` songs
exist is modelled as the error case. -/
def get_quiz_songs (all_songs : List Song) (rated_song_ids : List Int) (n : ℕ)
    (sample : List Song → ℕ → List Song) : Except String (List Song) :=
  if all_songs.length < n then .error ("Not enough songs in database")
  else
    let unrated := unratedSongs all_songs rated_song_ids
    if unrated.length < n then
      let rated := ratedSongs all_songs rated_song_ids
      .ok (unrated ++ sample rated (min (n - unrated.length) rated.length))
    else .ok (sample unrated n)

/-- Row of the `user_song_feedback` table (`id` is the primary key). -/
structure FeedbackRow where
  id : Int
  user_id : Int
  song_id : Int
  liked : Bool
deriving DecidableEq

/-- Match of the `WHERE user_id = ? AND song_id = ?` clause. -/
def matchesPair (u s : Int) (r : FeedbackRow) : Bool :=
  r.user_id == u && r.song_id == s

/-- State of the `user_song_feedback` table: its rows in insertion order plus
the next primary key value. -/
structure FeedbackTable where
  rows : List FeedbackRow
  next_id : Int

/-- `QuizService.save_feedback`: the first row matching `(user_id, song_id)` is
looked up; if found its `liked` column is updated via `WHERE id = ?`, otherwise
a fresh row is inserted. -/
def save_feedback (db : FeedbackTable) (u s : Int) (v : Bool) : FeedbackTable :=
  match db.rows.find? (matchesPair u s) with
  | some existing =>
      { db with rows := db.rows.map (fun r => if r.id == existing.id then { r with liked := v } else r) }
  | none =>
      { rows := db.rows ++ [⟨db.next_id, u, s, v⟩], next_id := db.next_id + 1 }

/-- Raw `songs` row as fetched by the dict row factory: the SQLite schema
(`app/database.py`) declares `year INTEGER` without `NOT NULL`, so at the row
level the year may be missing, while `bpm` is optional also in the typed
model. The scoring code accesses these columns directly. -/
structure SongRow where
  id : Int
  title : String
  artist : String
  subgenre : String
  year : Option Int
  tags : String
  bpm : Option Int
deriving DecidableEq

/-- The list `[s["bpm"] for s in liked_songs if s["bpm"]]` over raw rows. -/
def likedBpmsRow (liked : List SongRow) : List Int :=
  liked.filterMap (fun s => if intTruthy s.bpm then s.bpm else none)

/-- BPM proximity term of `score_song` over raw rows; every access to a
possibly missing BPM is guarded by a truthiness test, so the term is total. -/
def bpmTermRow (cfg : Config) (song : SongRow) (liked : List SongRow) : ℚ :=
  if intTruthy song.bpm ∧ liked ≠ [] then
    if likedBpmsRow liked ≠ [] then
      if |((song.bpm.getD 0 : Int) : ℚ)
            - ((likedBpmsRow liked).map (fun b => (b : ℚ))).sum / ((likedBpmsRow liked).length : ℚ)|
          ≤ (cfg.BPM_TOLERANCE : ℚ) then
        cfg.BPM_WEIGHT
      else 0
    else 0
  else 0

/-- Tag overlap term of `score_song` over raw rows. -/
def tagTermRow (cfg : Config) (song : SongRow) (liked : List SongRow) : ℚ :=
  (liked.map (fun l => ((songTags song.tags ∩ songTags l.tags).card : ℚ) * cfg.TAG_WEIGHT)).sum

/-- Era proximity term of `score_song` over raw rows. The source computes
`sum(liked_years) / len(...)` and `abs(song["year"] - median_year)` with no
guard on missing years: on a `None` year Python raises a `TypeError`.
Evaluation failure is modelled as `none`; a successful evaluation of the term
is `some` its value. -/
def eraTermRow (cfg : Config) (song : SongRow) (liked : List SongRow) : Option ℚ :=
  if liked = [] then some 0
  else do
    let ys ← liked.mapM (fun s => s.year)
    let y ← song.year
    let m : ℚ := (ys.map (fun a => (a : ℚ))).sum / (liked.length : ℚ)
    pure (if |(y : ℚ) - m| ≤ (cfg.YEAR_TOLERANCE : ℚ) then cfg.ERA_WEIGHT else 0)

/-- `score_song` over raw rows with no seed song: the whole call fails (is
`none`) exactly when the era term fails. -/
def score_songRow (cfg : Config) (song : SongRow) (liked disliked : List SongRow)
    (j : ℚ) : Option ℚ := do
  let era ← eraTermRow cfg song liked
  pure ((cfg.ARTIST_WEIGHT * (liked.countP (fun l => song.artist == l.artist) : ℚ)
          - cfg.ARTIST_WEIGHT * (disliked.countP (fun l => song.artist == l.artist) : ℚ))
        + (cfg.SUBGENRE_WEIGHT * (liked.countP (fun l => song.subgenre == l.subgenre) : ℚ)
          - cfg.SUBGENRE_WEIGHT * (disliked.countP (fun l => song.subgenre == l.subgenre) : ℚ))
        + tagTermRow cfg song liked + bpmTermRow cfg song liked + era + j)

/-! Generic list helpers. -/

/-- Any over a mapped list, with an arbitrary target type. -/
lemma any_map_gen {α β : Type} (l : List α) (f : α → β) (p : β → Bool) :
    (l.map f).any p = l.any (fun a => p (f a)) := by
  induction l with
  | nil => rfl
  | cons a t ih => simp [ih]

/-- A subpermutation of a list with no duplicates has no duplicates. -/
lemma nodup_of_subperm {α : Type} {l₁ l₂ : List α} (h : l₁.Subperm l₂)
    (hnd : l₂.Nodup) : l₁.Nodup := by
  obtain ⟨w, hp, hs⟩ := h
  exact hp.nodup (hs.nodup hnd)

/-- Mapping preserves subpermutations. -/
lemma subperm_map_of_subperm {α β : Type} (f : α → β) {l₁ l₂ : List α}
    (h : l₁.Subperm l₂) : (l₁.map f).Subperm (l₂.map f) := by
  obtain ⟨w, hp, hs⟩ := h
  exact ⟨w.map f, hp.map f, hs.map f⟩

/-- Growing both sides of a subpermutation by the same prefix. -/
lemma subperm_append_grow {α : Type} (l : List α) {l₁ l₂ : List α}
    (h : l₁.Subperm l₂) : (l ++ l₁).Subperm (l ++ l₂) := by
  obtain ⟨w, hp, hs⟩ := h
  exact ⟨l ++ w, hp.append_left l, hs.append_left l⟩

/-- A list of length at most one containing `a` is exactly `[a]`. -/
lemma eq_singleton_of_length_le_one {α : Type} {l : List α} {a : α}
    (hlen : l.length ≤ 1) (ha : a ∈ l) : l = [a] := by
  match l, ha with
  | [x], ha =>
      rw [List.mem_singleton] at ha
      rw [ha]
  | x :: y :: t, _ => simp at hlen

/-! Characterization of the scored pool. -/

/-- The genre pass is the map of the scoring-with-bonus function over the
non-disliked genre songs (also when the guard of the source makes it `[]`,
because then the genre song list is itself `[]`). -/
lemma genrePass_eq (cfg : Config) (all_songs liked disliked : List Song)
    (pg : Option String) (seed : Option Song) (jit : Song → ℚ) :
    genrePass cfg all_songs liked disliked pg seed jit
      = ((genreSongs all_songs pg).filter (fun s => decide (s.id ∉ dislikedIds disliked))).map
          (fun s => (s, score_song cfg s liked disliked seed (jit s) + cfg.GENRE_BONUS)) := by
  unfold genrePass
  by_cases h : strTruthy pg = true ∧ genreSongs all_songs pg ≠ []
  · rw [if_pos h]
  · rw [if_neg h]
    rcases not_and_or.mp h with h1 | h2
    · have hg : genreSongs all_songs pg = [] := by
        cases pg with
        | none => rfl
        | some g =>
            have hg2 : g = "" := by simpa [strTruthy] using h1
            simp [genreSongs, hg2]
      rw [hg]
      rfl
    · rw [not_not.mp h2]
      rfl

/-- The genre songs form a sublist of the input pool. -/
lemma genreSongs_sublist (all_songs : List Song) (pg : Option String) :
    (genreSongs all_songs pg).Sublist all_songs := by
  cases pg with
  | none => exact List.nil_sublist _
  | some g =>
      by_cases hg : g = ""
      · simp [genreSongs, hg]
      · simp only [genreSongs, if_neg hg]
        exact List.filter_sublist _

/-- Unfolding of the second pass of `generate_recommendations`: when the song
ids of the traversed list are pairwise distinct, the fold appends exactly the
songs that are neither disliked nor already present in the accumulator. -/
lemma foldl_scoreStep_eq (cfg : Config) (liked disliked : List Song)
    (seed : Option Song) (jit : Song → ℚ) (l : List Song) :
    ∀ acc : List (Song × ℚ), (l.map (fun s => s.id)).Nodup →
      l.foldl (scoreStep cfg liked disliked seed jit) acc
        = acc ++ (l.filter (fun s => decide (s.id ∉ dislikedIds disliked)
              && !(acc.any (fun p => p.1.id == s.id)))).map
            (fun s => (s, score_song cfg s liked disliked seed (jit s))) := by
  induction l with
  | nil => intro acc _; simp
  | cons s t ih =>
      intro acc hnd
      rw [List.map_cons, List.nodup_cons] at hnd
      obtain ⟨hs, hnd2⟩ := hnd
      rw [List.foldl_cons]
      by_cases hc : s.id ∈ dislikedIds disliked ∨ acc.any (fun p => p.1.id == s.id) = true
      · have hstep : scoreStep cfg liked disliked seed jit acc s = acc := if_pos hc
        rw [hstep, ih acc hnd2]
        have hcnd : (decide (s.id ∉ dislikedIds disliked)
            && !(acc.any (fun p => p.1.id == s.id))) = false := by
          rcases hc with hd | ha
          · have hdd : decide (s.id ∉ dislikedIds disliked) = false := by simp [hd]
            rw [hdd, Bool.false_and]
          · rw [ha, Bool.not_true, Bool.and_false]
        rw [List.filter_cons_of_neg (by rw [hcnd]; exact Bool.false_ne_true)]
      · have hstep : scoreStep cfg liked disliked seed jit acc s
            = acc ++ [(s, score_song cfg s liked disliked seed (jit s))] := if_neg hc
        push_neg at hc
        obtain ⟨hd, ha⟩ := hc
        have ha2 : acc.any (fun p => p.1.id == s.id) = false := Bool.eq_false_iff.mpr ha
        rw [hstep, ih _ hnd2]
        have hfe : t.filter (fun x => decide (x.id ∉ dislikedIds disliked)
              && !((acc ++ [(s, score_song cfg s liked disliked seed (jit s))]).any
                    (fun p => p.1.id == x.id)))
            = t.filter (fun x => decide (x.id ∉ dislikedIds disliked)
              && !(acc.any (fun p => p.1.id == x.id))) := by
          apply List.filter_congr
          intro x hx
          have hne : s.id ≠ x.id := by
            intro hEq
            exact hs (hEq ▸ List.mem_map_of_mem (fun a => a.id) hx)
          have hb : (s.id == x.id) = false := beq_eq_false_iff_ne.mpr hne
          simp [List.any_append, hb]
        rw [hfe]
        rw [List.filter_cons_of_pos (by simp [hd, ha2]), List.map_cons, List.append_assoc,
          List.singleton_append]

/-- Projecting the songs back out of a scored list. -/
lemma map_fst_pair (l : List Song) (f : Song → ℚ) :
    ((l.map (fun s => (s, f s))).map (fun p => p.1)) = l := by
  induction l with
  | nil => rfl
  | cons a t ih => simp [ih]

/-- Id search over a scored list built from a song list. -/
lemma pair_any_id (l : List Song) (f : Song → ℚ) (x : Song) :
    ((l.map (fun s => (s, f s))).any (fun p => p.1.id == x.id))
      = l.any (fun s => s.id == x.id) := by
  induction l with
  | nil => rfl
  | cons a t ih => simp [ih]

/-- With pairwise distinct song ids, searching a filtered pool by the id of a
pool member decides the filter predicate at that member. -/
lemma filter_any_id (all_songs : List Song)
    (hnd : (all_songs.map (fun s => s.id)).Nodup) (P : Song → Bool) {x : Song}
    (hx : x ∈ all_songs) :
    ((all_songs.filter P).any (fun t => t.id == x.id)) = P x := by
  by_cases hPx : P x = true
  · rw [hPx]
    exact List.any_eq_true.mpr ⟨x, List.mem_filter.mpr ⟨hx, hPx⟩, by simp⟩
  · rw [Bool.eq_false_iff.mpr hPx]
    apply List.any_eq_false.mpr
    intro t ht hbeq
    obtain ⟨ht1, ht2⟩ := List.mem_filter.mp ht
    have hteq : t = x := List.inj_on_of_nodup_map hnd ht1 hx (beq_iff_eq.mp hbeq)
    rw [hteq] at ht2
    exact hPx ht2

/-- Splitting one filter into the part satisfying a second predicate and the
part refuting it gives back the filter, up to permutation. -/
lemma filter_partition_perm {α : Type} (P Q : α → Bool) (l : List α) :
    (l.filter (fun a => P a && Q a) ++ l.filter (fun a => P a && !(Q a))).Perm
      (l.filter P) := by
  have h1 : (l.filter P).filter Q = l.filter (fun a => P a && Q a) := by
    rw [List.filter_filter]
    exact List.filter_congr (fun x _ => Bool.and_comm (Q x) (P x))
  have h2 : (l.filter P).filter (fun a => !(Q a)) = l.filter (fun a => P a && !(Q a)) := by
    rw [List.filter_filter]
    exact List.filter_congr (fun x _ => Bool.and_comm (!(Q x)) (P x))
  rw [← h1, ← h2]
  exact List.filter_append_perm Q (l.filter P)

/-- Shape of the scored pool on a warm-path call with a (truthy) requested
genre and pairwise distinct ids: first all non-disliked genre songs with the
bonus, then all remaining non-disliked songs without it. -/
lemma scoredPool_genre_eq (cfg : Config) (all_songs liked disliked : List Song)
    (g : String) (seed : Option Song) (jit : Song → ℚ) (hg : g ≠ "")
    (hnd : (all_songs.map (fun s => s.id)).Nodup) :
    scoredPool cfg all_songs liked disliked (some g) seed jit
      = ((all_songs.filter (fun s => decide (s.id ∉ dislikedIds disliked)
            && s.subgenre == g)).map
          (fun s => (s, score_song cfg s liked disliked seed (jit s) + cfg.GENRE_BONUS)))
        ++ ((all_songs.filter (fun s => decide (s.id ∉ dislikedIds disliked)
            && !(s.subgenre == g))).map
          (fun s => (s, score_song cfg s liked disliked seed (jit s)))) := by
  unfold scoredPool
  rw [foldl_scoreStep_eq cfg liked disliked seed jit all_songs _ hnd, genrePass_eq]
  have hgs : genreSongs all_songs (some g) = all_songs.filter (fun s => s.subgenre == g) := by
    simp [genreSongs, hg]
  rw [hgs, List.filter_filter]
  congr 1
  congr 1
  apply List.filter_congr
  intro x hx
  rw [pair_any_id, filter_any_id all_songs hnd _ hx]
  cases hdx : decide (x.id ∉ dislikedIds disliked) <;> simp

/-- Shape of the scored pool when no (truthy) genre is requested. -/
lemma scoredPool_no_genre_eq (cfg : Config) (all_songs liked disliked : List Song)
    (pg : Option String) (seed : Option Song) (jit : Song → ℚ)
    (hpg : strTruthy pg = false) (hnd : (all_songs.map (fun s => s.id)).Nodup) :
    scoredPool cfg all_songs liked disliked pg seed jit
      = (all_songs.filter (fun s => decide (s.id ∉ dislikedIds disliked))).map
          (fun s => (s, score_song cfg s liked disliked seed (jit s))) := by
  unfold scoredPool
  rw [foldl_scoreStep_eq cfg liked disliked seed jit all_songs _ hnd]
  have hgp : genrePass cfg all_songs liked disliked pg seed jit = [] := by
    unfold genrePass
    rw [if_neg]
    intro hand
    rw [hpg] at hand
    exact Bool.false_ne_true hand.1
  rw [hgp, List.nil_append]
  congr 1
  apply List.filter_congr
  intro x hx
  simp

/-- The songs of the scored pool are, up to permutation, exactly the
non-disliked songs of the input pool (given pairwise distinct ids). -/
lemma scoredPool_fst_perm (cfg : Config) (all_songs liked disliked : List Song)
    (pg : Option String) (seed : Option Song) (jit : Song → ℚ)
    (hnd : (all_songs.map (fun s => s.id)).Nodup) :
    ((scoredPool cfg all_songs liked disliked pg seed jit).map (fun p => p.1)).Perm
      (all_songs.filter (fun s => decide (s.id ∉ dislikedIds disliked))) := by
  by_cases hpg : strTruthy pg = true
  · match pg, hpg with
    | some g, hpg =>
      have hg : g ≠ "" := by simpa [strTruthy] using hpg
      rw [scoredPool_genre_eq cfg all_songs liked disliked g seed jit hg hnd,
        List.map_append, map_fst_pair, map_fst_pair]
      exact filter_partition_perm _ _ all_songs
  · rw [scoredPool_no_genre_eq cfg all_songs liked disliked pg seed jit
      (Bool.eq_false_iff.mpr hpg) hnd, map_fst_pair]

/-- Every element of the fill fold is either from the accumulator or
non-disliked. -/
lemma mem_foldl_scoreStep (cfg : Config) (liked disliked : List Song)
    (seed : Option Song) (jit : Song → ℚ) (l : List Song) :
    ∀ acc p, p ∈ l.foldl (scoreStep cfg liked disliked seed jit) acc →
      p ∈ acc ∨ p.1.id ∉ dislikedIds disliked := by
  induction l with
  | nil => intro acc p hp; exact Or.inl hp
  | cons s t ih =>
      intro acc p hp
      rw [List.foldl_cons] at hp
      rcases ih _ p hp with h | h
      · unfold scoreStep at h
        by_cases hc : s.id ∈ dislikedIds disliked ∨ acc.any (fun q => q.1.id == s.id) = true
        · rw [if_pos hc] at h
          exact Or.inl h
        · rw [if_neg hc] at h
          rcases List.mem_append.mp h with h1 | h1
          · exact Or.inl h1
          · rw [List.mem_singleton] at h1
            subst h1
            push_neg at hc
            exact Or.inr hc.1
      · exact Or.inr h

/-- Genre-pass candidates are never disliked. -/
lemma mem_genrePass_not_disliked (cfg : Config) (all_songs liked disliked : List Song)
    (pg : Option String) (seed : Option Song) (jit : Song → ℚ) {p : Song × ℚ}
    (hp : p ∈ genrePass cfg all_songs liked disliked pg seed jit) :
    p.1.id ∉ dislikedIds disliked := by
  rw [genrePass_eq] at hp
  obtain ⟨s, hs, rfl⟩ := List.mem_map.mp hp
  simpa using (List.mem_filter.mp hs).2

/-- C1. Disliked-song exclusion: for every warm-path call to
`generate_recommendations` (any candidate pool, liked list, disliked list,
count, optional genre, optional seed song, any jitter draw), no song whose id
is in the disliked id set appears in the returned list. -/
theorem disliked_song_exclusion (cfg : Config) (all_songs liked disliked : List Song)
    (count : ℕ) (pg : Option String) (seed : Option Song) (jit : Song → ℚ) (s : Song)
    (hs : s ∈ generate_recommendations cfg all_songs liked disliked count pg seed jit) :
    s.id ∉ dislikedIds disliked := by
  unfold generate_recommendations at hs
  obtain ⟨p, hp, rfl⟩ := List.mem_map.mp hs
  have hp2 : p ∈ sortScored (scoredPool cfg all_songs liked disliked pg seed jit) :=
    List.mem_of_mem_take hp
  have hp3 : p ∈ scoredPool cfg all_songs liked disliked pg seed jit :=
    ((List.perm_insertionSort scoreDesc _).mem_iff).mp hp2
  unfold scoredPool at hp3
  rcases mem_foldl_scoreStep cfg liked disliked seed jit all_songs _ p hp3 with h | h
  · exact mem_genrePass_not_disliked cfg all_songs liked disliked pg seed jit h
  · exact h

/-- C1 witness: a concrete call on a two-song pool with a disliked song; the
returned song is not the disliked one. -/
theorem disliked_song_exclusion_witness :
    (⟨1, "t1", "a1", "g1", 2000, "", none⟩ : Song).id
      ∉ dislikedIds [⟨2, "t2", "a2", "g2", 2001, "", none⟩] :=
  disliked_song_exclusion defaultConfig
    [⟨1, "t1", "a1", "g1", 2000, "", none⟩, ⟨2, "t2", "a2", "g2", 2001, "", none⟩]
    [] [⟨2, "t2", "a2", "g2", 2001, "", none⟩] 5 none none (fun _ => 0)
    ⟨1, "t1", "a1", "g1", 2000, "", none⟩ (by decide)

/-- The lengths of a filter and of the filter of the negated predicate add up
to the length of the list. -/
lemma filter_length_partition {α : Type} (P : α → Bool) (l : List α) :
    (l.filter P).length + (l.filter (fun a => !(P a))).length = l.length := by
  have h := (List.filter_append_perm P l).length_eq
  rw [List.length_append] at h
  exact h

/-- In the mixed cold-start branch, removing the already chosen genre songs
by value is the same as filtering on the genre (by pointwise agreement on the
members of the pool). -/
lemma cold_remaining_eq (all_songs : List Song) (g : String) :
    all_songs.filter (fun s => decide (s ∉ all_songs.filter (fun t => t.subgenre == g)))
      = all_songs.filter (fun s => !(s.subgenre == g)) := by
  apply List.filter_congr
  intro x hx
  by_cases hxg : (x.subgenre == g) = true
  · have hmem : x ∈ all_songs.filter (fun t => t.subgenre == g) :=
      List.mem_filter.mpr ⟨hx, hxg⟩
    simp [hmem, hxg]
  · have hx2 : x ∉ all_songs.filter (fun t => t.subgenre == g) := by
      intro hmem
      exact hxg (List.mem_filter.mp hmem).2
    simp [hx2, Bool.eq_false_iff.mpr hxg]

/-- Length of the cold-start playlist: always `min count (number of songs)`. -/
lemma cold_start_length (all_songs : List Song) (count : ℕ) (pg : Option String)
    (sample : List Song → ℕ → List Song) (hsamp : IsSampler sample) :
    (generate_cold_start_playlist all_songs count pg sample).length
      = min count all_songs.length := by
  cases pg with
  | none => exact (hsamp all_songs (min count all_songs.length) (min_le_right _ _)).1
  | some g =>
      show (if g = "" then sample all_songs (min count all_songs.length)
        else _).length = _
      by_cases hg : g = ""
      · rw [if_pos hg]
        exact (hsamp all_songs (min count all_songs.length) (min_le_right _ _)).1
      · rw [if_neg hg]
        simp only []
        by_cases hcnt : (all_songs.filter (fun s => s.subgenre == g)).length ≥ count
        · rw [if_pos hcnt]
          have hcl : (all_songs.filter (fun s => s.subgenre == g)).length
              ≤ all_songs.length := List.length_filter_le _ _
          rw [(hsamp _ count hcnt).1]
          omega
        · rw [if_neg hcnt]
          rw [cold_remaining_eq all_songs g]
          have hpart := filter_length_partition (fun s => s.subgenre == g) all_songs
          by_cases hrem : count - (all_songs.filter (fun s => s.subgenre == g)).length > 0
              ∧ all_songs.filter (fun s => !(s.subgenre == g)) ≠ []
          · rw [if_pos hrem]
            rw [List.length_append]
            rw [(hsamp _ _ (min_le_right _ _)).1]
            omega
          · rw [if_neg hrem]
            rcases not_and_or.mp hrem with h1 | h2
            · omega
            · have hz : (all_songs.filter (fun s => !(s.subgenre == g))).length = 0 := by
                rw [not_not.mp h2]
                rfl
              omega

/-- C2. Output length bound: on the warm path the engine returns exactly
`min count (number of non-disliked songs)`, and on the cold-start path exactly
`min count (number of songs)`; when fewer candidates than `count` exist they
are all returned and no error occurs. Candidate counts presuppose the
data-model invariant that song ids are pairwise distinct. -/
theorem output_length_bound (cfg : Config) (all_songs liked disliked : List Song)
    (count : ℕ) (pg : Option String) (seed : Option Song) (jit : Song → ℚ)
    (sample : List Song → ℕ → List Song)
    (hnd : (all_songs.map (fun s => s.id)).Nodup) (hsamp : IsSampler sample) :
    (generate_recommendations cfg all_songs liked disliked count pg seed jit).length
        = min count ((all_songs.filter (fun s => decide (s.id ∉ dislikedIds disliked))).length)
      ∧ (generate_cold_start_playlist all_songs count pg sample).length
        = min count all_songs.length := by
  constructor
  · unfold generate_recommendations
    rw [List.length_map, List.length_take]
    have h1 : (sortScored (scoredPool cfg all_songs liked disliked pg seed jit)).length
        = (scoredPool cfg all_songs liked disliked pg seed jit).length :=
      (List.perm_insertionSort scoreDesc _).length_eq
    have h2 : (scoredPool cfg all_songs liked disliked pg seed jit).length
        = (all_songs.filter (fun s => decide (s.id ∉ dislikedIds disliked))).length := by
      rw [← List.length_map (scoredPool cfg all_songs liked disliked pg seed jit)
        (fun p => p.1)]
      exact (scoredPool_fst_perm cfg all_songs liked disliked pg seed jit hnd).length_eq
    rw [h1, h2]
  · exact cold_start_length all_songs count pg sample hsamp

/-- A sampler used to instantiate the `random.sample` oracle in witnesses:
taking the first `k` elements is a draw without replacement. -/
def takeSampler : List Song → ℕ → List Song := fun pop k => pop.take k

/-- The take-prefix sampler satisfies the `random.sample` contract. -/
lemma isSampler_takeSampler : IsSampler takeSampler := by
  intro pop k hk
  constructor
  · show (pop.take k).length = k
    rw [List.length_take]
    omega
  · exact (List.take_sublist k pop).subperm

/-- C2 witness: one song, two requested; both paths return the single song. -/
theorem output_length_bound_witness :
    (generate_recommendations defaultConfig [⟨1, "t1", "a1", "g1", 2000, "", none⟩]
        [] [] 2 none none (fun _ => 0)).length
      = min 2 (([⟨1, "t1", "a1", "g1", 2000, "", none⟩] : List Song).filter
          (fun s => decide (s.id ∉ dislikedIds []))).length
    ∧ (generate_cold_start_playlist [⟨1, "t1", "a1", "g1", 2000, "", none⟩] 2 none
        takeSampler).length
      = min 2 ([⟨1, "t1", "a1", "g1", 2000, "", none⟩] : List Song).length :=
  output_length_bound defaultConfig [⟨1, "t1", "a1", "g1", 2000, "", none⟩] [] [] 2
    none none (fun _ => 0) takeSampler (by decide) isSampler_takeSampler

/-- The fill fold preserves distinctness of the pooled ids: a song is appended
only after the id check against the accumulator. -/
lemma nodup_foldl_scoreStep (cfg : Config) (liked disliked : List Song)
    (seed : Option Song) (jit : Song → ℚ) (l : List Song) :
    ∀ acc : List (Song × ℚ), ((acc.map (fun p => p.1.id)).Nodup) →
      (((l.foldl (scoreStep cfg liked disliked seed jit) acc).map (fun p => p.1.id)).Nodup) := by
  induction l with
  | nil => intro acc h; exact h
  | cons s t ih =>
      intro acc h
      rw [List.foldl_cons]
      apply ih
      unfold scoreStep
      by_cases hc : s.id ∈ dislikedIds disliked ∨ acc.any (fun q => q.1.id == s.id) = true
      · rw [if_pos hc]
        exact h
      · rw [if_neg hc]
        push_neg at hc
        have ha : acc.any (fun q => q.1.id == s.id) = false := Bool.eq_false_iff.mpr hc.2
        rw [List.map_append]
        rw [List.nodup_append]
        refine ⟨h, List.nodup_singleton _, ?_⟩
        intro a haa hb
        rw [show ([(s, score_song cfg s liked disliked seed (jit s))].map
          (fun p => p.1.id)) = [s.id] from rfl] at hb
        rw [List.mem_singleton] at hb
        subst hb
        obtain ⟨q, hq, hqa⟩ := List.mem_map.mp haa
        have := List.any_eq_false.mp ha q hq
        rw [← hqa] at this
        simp at this

/-- The pooled ids are distinct when the input ids are. -/
lemma nodup_ids_scoredPool (cfg : Config) (all_songs liked disliked : List Song)
    (pg : Option String) (seed : Option Song) (jit : Song → ℚ)
    (hnd : (all_songs.map (fun s => s.id)).Nodup) :
    ((scoredPool cfg all_songs liked disliked pg seed jit).map (fun p => p.1.id)).Nodup := by
  unfold scoredPool
  apply nodup_foldl_scoreStep
  rw [genrePass_eq]
  have h1 : (((genreSongs all_songs pg).filter
      (fun s => decide (s.id ∉ dislikedIds disliked))).map (fun s => s.id)).Nodup := by
    apply List.Sublist.nodup _ hnd
    exact List.Sublist.map _ ((List.filter_sublist _).trans (genreSongs_sublist all_songs pg))
  have h2 : (((genreSongs all_songs pg).filter
        (fun s => decide (s.id ∉ dislikedIds disliked))).map
        (fun s => (s, score_song cfg s liked disliked seed (jit s) + cfg.GENRE_BONUS))).map
        (fun p => p.1.id)
      = ((genreSongs all_songs pg).filter
        (fun s => decide (s.id ∉ dislikedIds disliked))).map (fun s => s.id) := by
    rw [List.map_map]
    rfl
  rw [h2]
  exact h1

/-- The cold-start playlist is a draw without replacement from the pool. -/
lemma cold_start_subperm (all_songs : List Song) (count : ℕ) (pg : Option String)
    (sample : List Song → ℕ → List Song) (hsamp : IsSampler sample) :
    (generate_cold_start_playlist all_songs count pg sample).Subperm all_songs := by
  cases pg with
  | none => exact (hsamp all_songs (min count all_songs.length) (min_le_right _ _)).2
  | some g =>
      show (if g = "" then sample all_songs (min count all_songs.length) else _).Subperm _
      by_cases hg : g = ""
      · rw [if_pos hg]
        exact (hsamp all_songs (min count all_songs.length) (min_le_right _ _)).2
      · rw [if_neg hg]
        simp only []
        by_cases hcnt : (all_songs.filter (fun s => s.subgenre == g)).length ≥ count
        · rw [if_pos hcnt]
          exact ((hsamp _ count hcnt).2).trans (List.filter_sublist _).subperm
        · rw [if_neg hcnt]
          rw [cold_remaining_eq all_songs g]
          by_cases hrem : count - (all_songs.filter (fun s => s.subgenre == g)).length > 0
              ∧ all_songs.filter (fun s => !(s.subgenre == g)) ≠ []
          · rw [if_pos hrem]
            have hgrow := subperm_append_grow (all_songs.filter (fun s => s.subgenre == g))
              ((hsamp (all_songs.filter (fun s => !(s.subgenre == g)))
                (min (count - (all_songs.filter (fun s => s.subgenre == g)).length)
                  (all_songs.filter (fun s => !(s.subgenre == g))).length)
                (min_le_right _ _)).2)
            exact hgrow.trans (List.filter_append_perm _ all_songs).subperm
          · rw [if_neg hrem]
            exact (List.filter_sublist _).subperm

/-- C3. No duplicates: when the input pool has pairwise distinct song ids,
neither the warm path nor the cold-start path ever returns a repeated id. -/
theorem no_duplicate_ids (cfg : Config) (all_songs liked disliked : List Song)
    (count : ℕ) (pg : Option String) (seed : Option Song) (jit : Song → ℚ)
    (sample : List Song → ℕ → List Song)
    (hnd : (all_songs.map (fun s => s.id)).Nodup) (hsamp : IsSampler sample) :
    ((generate_recommendations cfg all_songs liked disliked count pg seed jit).map
        (fun s => s.id)).Nodup
      ∧ ((generate_cold_start_playlist all_songs count pg sample).map
        (fun s => s.id)).Nodup := by
  constructor
  · unfold generate_recommendations
    rw [List.map_map]
    have hsorted : ((sortScored (scoredPool cfg all_songs liked disliked pg seed jit)).map
        (fun p => p.1.id)).Nodup := by
      have hperm := (List.perm_insertionSort scoreDesc
        (scoredPool cfg all_songs liked disliked pg seed jit)).map (fun p => p.1.id)
      exact hperm.nodup_iff.mpr
        (nodup_ids_scoredPool cfg all_songs liked disliked pg seed jit hnd)
    exact List.Sublist.nodup (List.Sublist.map _ (List.take_sublist count _)) hsorted
  · exact nodup_of_subperm
      (subperm_map_of_subperm (fun s => s.id)
        (cold_start_subperm all_songs count pg sample hsamp)) hnd

/-- C3 witness: a concrete two-song pool with distinct ids; both paths return
lists of distinct ids. -/
theorem no_duplicate_ids_witness :
    ((generate_recommendations defaultConfig [⟨1, "t1", "a1", "g1", 2000, "", none⟩]
        [] [] 3 none none (fun _ => 0)).map (fun s => s.id)).Nodup
      ∧ ((generate_cold_start_playlist [⟨1, "t1", "a1", "g1", 2000, "", none⟩] 3 none
        takeSampler).map (fun s => s.id)).Nodup :=
  no_duplicate_ids defaultConfig [⟨1, "t1", "a1", "g1", 2000, "", none⟩] [] [] 3 none
    none (fun _ => 0) takeSampler (by decide) isSampler_takeSampler

/-- C4. Soft-bias genre handling: on a warm-path call with a (truthy)
requested genre and pairwise distinct song ids, the scored pool is exactly the
non-disliked genre-matching songs scored with `GENRE_BONUS` added, followed by
all remaining non-disliked songs scored without the bonus; hence the songs of
the pool are, up to permutation, exactly the non-disliked songs of the whole
input pool (never fewer than the available songs, however sparse the genre). -/
theorem soft_bias_genre_pool (cfg : Config) (all_songs liked disliked : List Song)
    (g : String) (seed : Option Song) (jit : Song → ℚ) (hg : g ≠ "")
    (hnd : (all_songs.map (fun s => s.id)).Nodup) :
    scoredPool cfg all_songs liked disliked (some g) seed jit
        = ((all_songs.filter (fun s => decide (s.id ∉ dislikedIds disliked)
              && s.subgenre == g)).map
            (fun s => (s, score_song cfg s liked disliked seed (jit s) + cfg.GENRE_BONUS)))
          ++ ((all_songs.filter (fun s => decide (s.id ∉ dislikedIds disliked)
              && !(s.subgenre == g))).map
            (fun s => (s, score_song cfg s liked disliked seed (jit s))))
      ∧ ((scoredPool cfg all_songs liked disliked (some g) seed jit).map
          (fun p => p.1)).Perm
        (all_songs.filter (fun s => decide (s.id ∉ dislikedIds disliked))) :=
  ⟨scoredPool_genre_eq cfg all_songs liked disliked g seed jit hg hnd,
    scoredPool_fst_perm cfg all_songs liked disliked (some g) seed jit hnd⟩

/-- C4 witness: a concrete pool with one genre-matching and one other song. -/
theorem soft_bias_genre_pool_witness :
    scoredPool defaultConfig
        [⟨1, "t1", "a1", "g", 2000, "", none⟩, ⟨2, "t2", "a2", "h", 2001, "", none⟩]
        [] [] (some "g") none (fun _ => 0)
        = (([⟨1, "t1", "a1", "g", 2000, "", none⟩, ⟨2, "t2", "a2", "h", 2001, "", none⟩].filter
              (fun s => decide (s.id ∉ dislikedIds []) && s.subgenre == "g")).map
            (fun s => (s, score_song defaultConfig s [] [] none 0 + defaultConfig.GENRE_BONUS)))
          ++ (([⟨1, "t1", "a1", "g", 2000, "", none⟩, ⟨2, "t2", "a2", "h", 2001, "", none⟩].filter
              (fun s => decide (s.id ∉ dislikedIds []) && !(s.subgenre == "g"))).map
            (fun s => (s, score_song defaultConfig s [] [] none 0)))
      ∧ ((scoredPool defaultConfig
          [⟨1, "t1", "a1", "g", 2000, "", none⟩, ⟨2, "t2", "a2", "h", 2001, "", none⟩]
          [] [] (some "g") none (fun _ => 0)).map (fun p => p.1)).Perm
        ([⟨1, "t1", "a1", "g", 2000, "", none⟩, ⟨2, "t2", "a2", "h", 2001, "", none⟩].filter
          (fun s => decide (s.id ∉ dislikedIds []))) :=
  soft_bias_genre_pool defaultConfig
    [⟨1, "t1", "a1", "g", 2000, "", none⟩, ⟨2, "t2", "a2", "h", 2001, "", none⟩]
    [] [] "g" none (fun _ => 0) (by decide) (by decide)

/-- Membership inversion for a genre-matching song: its pooled score is its
`score_song` value plus the genre bonus. -/
lemma mem_scoredPool_genre_match (cfg : Config) (all_songs liked disliked : List Song)
    (g : String) (seed : Option Song) (jit : Song → ℚ) (hg : g ≠ "")
    (hnd : (all_songs.map (fun s => s.id)).Nodup) {A : Song} {x : ℚ}
    (hAg : A.subgenre = g)
    (hmem : (A, x) ∈ scoredPool cfg all_songs liked disliked (some g) seed jit) :
    x = score_song cfg A liked disliked seed (jit A) + cfg.GENRE_BONUS := by
  rw [scoredPool_genre_eq cfg all_songs liked disliked g seed jit hg hnd] at hmem
  rcases List.mem_append.mp hmem with h | h
  · obtain ⟨s, hsmem, heq⟩ := List.mem_map.mp h
    rw [Prod.mk.injEq] at heq
    obtain ⟨rfl, hx⟩ := heq
    exact hx.symm
  · exfalso
    obtain ⟨s, hsmem, heq⟩ := List.mem_map.mp h
    rw [Prod.mk.injEq] at heq
    obtain ⟨rfl, hx⟩ := heq
    have hcond := (List.mem_filter.mp hsmem).2
    rw [Bool.and_eq_true] at hcond
    have := hcond.2
    simp [hAg] at this

/-- Membership inversion for a non-genre song: its pooled score is its plain
`score_song` value. -/
lemma mem_scoredPool_genre_nonmatch (cfg : Config) (all_songs liked disliked : List Song)
    (g : String) (seed : Option Song) (jit : Song → ℚ) (hg : g ≠ "")
    (hnd : (all_songs.map (fun s => s.id)).Nodup) {B : Song} {y : ℚ}
    (hBg : B.subgenre ≠ g)
    (hmem : (B, y) ∈ scoredPool cfg all_songs liked disliked (some g) seed jit) :
    y = score_song cfg B liked disliked seed (jit B) := by
  rw [scoredPool_genre_eq cfg all_songs liked disliked g seed jit hg hnd] at hmem
  rcases List.mem_append.mp hmem with h | h
  · exfalso
    obtain ⟨s, hsmem, heq⟩ := List.mem_map.mp h
    rw [Prod.mk.injEq] at heq
    obtain ⟨rfl, hx⟩ := heq
    have hcond := (List.mem_filter.mp hsmem).2
    rw [Bool.and_eq_true] at hcond
    have := hcond.2
    simp [hBg] at this
  · obtain ⟨s, hsmem, heq⟩ := List.mem_map.mp h
    rw [Prod.mk.injEq] at heq
    obtain ⟨rfl, hx⟩ := heq
    exact hx.symm

/-- C6. Genre bonus monotonicity: for two songs scored by the warm-path engine
under a requested genre, one genre-matching and one not, with equal base
scores before jitter and every jitter draw in `[0, 0.1)`, the pooled score of
the matching song exceeds the pooled score of the other by at least
`GENRE_BONUS` minus the maximum jitter `0.1`. -/
theorem genre_bonus_monotonicity (cfg : Config) (all_songs liked disliked : List Song)
    (g : String) (seed : Option Song) (jit : Song → ℚ) (A B : Song) (x y : ℚ)
    (hg : g ≠ "") (hnd : (all_songs.map (fun s => s.id)).Nodup)
    (hAg : A.subgenre = g) (hBg : B.subgenre ≠ g)
    (hbase : baseScore cfg A liked disliked seed = baseScore cfg B liked disliked seed)
    (hjit : ∀ s, 0 ≤ jit s ∧ jit s < 1/10)
    (hxA : (A, x) ∈ scoredPool cfg all_songs liked disliked (some g) seed jit)
    (hyB : (B, y) ∈ scoredPool cfg all_songs liked disliked (some g) seed jit) :
    cfg.GENRE_BONUS - 1/10 ≤ x - y := by
  have hx := mem_scoredPool_genre_match cfg all_songs liked disliked g seed jit hg hnd
    hAg hxA
  have hy := mem_scoredPool_genre_nonmatch cfg all_songs liked disliked g seed jit hg hnd
    hBg hyB
  rw [hx, hy]
  unfold score_song
  rw [hbase]
  have h1 := (hjit A).1
  have h2 := (hjit B).2
  linarith

-- C6 witness: two concrete songs differing only in subgenre, scored in a
-- concrete warm-path pool with zero jitter; the difference of their pooled
-- scores is at least GENRE_BONUS minus 0.1.
unseal Rat.add Rat.mul Rat.inv Rat.sub in
theorem genre_bonus_monotonicity_witness :
    defaultConfig.GENRE_BONUS - 1/10
      ≤ (score_song defaultConfig (⟨1, "tA", "a", "g", 2000, "", none⟩ : Song) [] [] none 0
            + defaultConfig.GENRE_BONUS)
          - score_song defaultConfig (⟨2, "tB", "a", "h", 2000, "", none⟩ : Song) [] [] none 0 :=
  genre_bonus_monotonicity defaultConfig
    [⟨1, "tA", "a", "g", 2000, "", none⟩, ⟨2, "tB", "a", "h", 2000, "", none⟩] [] []
    "g" none (fun _ => 0)
    ⟨1, "tA", "a", "g", 2000, "", none⟩ ⟨2, "tB", "a", "h", 2000, "", none⟩
    (score_song defaultConfig (⟨1, "tA", "a", "g", 2000, "", none⟩ : Song) [] [] none 0
      + defaultConfig.GENRE_BONUS)
    (score_song defaultConfig (⟨2, "tB", "a", "h", 2000, "", none⟩ : Song) [] [] none 0)
    (by decide) (by decide) (by decide) (by decide) (by decide)
    (fun _ => ⟨le_refl 0, show (0:ℚ) < 1/10 by decide⟩) (by decide) (by decide)

/-- C5 (amended). Baseline score bound: a candidate whose artist, subgenre and
tags are disjoint from those of all liked and disliked songs, whose BPM (when
truthy, and when some liked song has a truthy BPM) lies farther than
`BPM_TOLERANCE` from the mean liked BPM, and whose year lies farther than
`YEAR_TOLERANCE` from the mean liked year (when liked songs exist), scores
strictly within `[0, 0.1)` under any jitter draw in `[0, 0.1)` and no seed
song: only the jitter contributes. Mere disjointness of the BPM and year
values does not suffice, because the proximity terms compare against the mean
within a tolerance rather than testing equality. -/
theorem baseline_score_bound (cfg : Config) (song : Song) (liked disliked : List Song)
    (j : ℚ)
    (hart : ∀ l ∈ liked ++ disliked, song.artist ≠ l.artist)
    (hsub : ∀ l ∈ liked ++ disliked, song.subgenre ≠ l.subgenre)
    (htag : ∀ l ∈ liked ++ disliked, songTags song.tags ∩ songTags l.tags = ∅)
    (hbpm : intTruthy song.bpm = true → likedBpms liked ≠ [] →
      ¬ (|((song.bpm.getD 0 : Int) : ℚ) - bpmMean liked| ≤ (cfg.BPM_TOLERANCE : ℚ)))
    (hyear : liked ≠ [] →
      ¬ (|((song.year : Int) : ℚ) - yearMean liked| ≤ (cfg.YEAR_TOLERANCE : ℚ)))
    (hj : 0 ≤ j ∧ j < 1/10) :
    0 ≤ score_song cfg song liked disliked none j
      ∧ score_song cfg song liked disliked none j < 1/10 := by
  have h1 : artistTerm cfg song liked disliked = 0 := by
    unfold artistTerm
    rw [List.countP_eq_zero.mpr
        (fun a ha hbeq => hart a (List.mem_append_left _ ha) (beq_iff_eq.mp hbeq)),
      List.countP_eq_zero.mpr
        (fun a ha hbeq => hart a (List.mem_append_right _ ha) (beq_iff_eq.mp hbeq))]
    simp
  have h2 : subgenreTerm cfg song liked disliked = 0 := by
    unfold subgenreTerm
    rw [List.countP_eq_zero.mpr
        (fun a ha hbeq => hsub a (List.mem_append_left _ ha) (beq_iff_eq.mp hbeq)),
      List.countP_eq_zero.mpr
        (fun a ha hbeq => hsub a (List.mem_append_right _ ha) (beq_iff_eq.mp hbeq))]
    simp
  have h3 : tagTerm cfg song liked = 0 := by
    unfold tagTerm
    apply List.sum_eq_zero
    intro x hx
    obtain ⟨l, hl, rfl⟩ := List.mem_map.mp hx
    rw [htag l (List.mem_append_left _ hl)]
    simp
  have h4 : bpmTerm cfg song liked = 0 := by
    unfold bpmTerm
    split_ifs with hc1 hc2 hc3
    · exact absurd hc3 (hbpm hc1.1 hc2)
    · rfl
    · rfl
    · rfl
  have h5 : eraTerm cfg song liked = 0 := by
    unfold eraTerm
    split_ifs with hc1 hc2
    · exact absurd hc2 (hyear hc1)
    · rfl
    · rfl
  have hbase : baseScore cfg song liked disliked none = 0 := by
    unfold baseScore
    rw [h1, h2, h3, h4, h5]
    show 0 + 0 + 0 + 0 + 0 + seedTerm cfg song none = 0
    simp [seedTerm]
  unfold score_song
  rw [hbase]
  constructor
  · linarith [hj.1]
  · linarith [hj.2]

-- C5 witness for the amended statement: a concrete candidate far from the
-- liked song in BPM and year, with disjoint categorical attributes and zero
-- jitter; its score is within the bound.
unseal Rat.add Rat.mul Rat.inv Rat.sub in
theorem baseline_score_bound_witness :
    0 ≤ score_song defaultConfig (⟨1, "t", "a", "x", 1950, "p", some 200⟩ : Song)
        [⟨2, "u", "b", "y", 2000, "q", some 120⟩] [] none 0
      ∧ score_song defaultConfig (⟨1, "t", "a", "x", 1950, "p", some 200⟩ : Song)
        [⟨2, "u", "b", "y", 2000, "q", some 120⟩] [] none 0 < 1/10 :=
  baseline_score_bound defaultConfig ⟨1, "t", "a", "x", 1950, "p", some 200⟩
    [⟨2, "u", "b", "y", 2000, "q", some 120⟩] [] 0
    (by decide) (by decide) (by decide) (by decide) (by decide) (by decide)

-- C5 counterexample against the claim as stated: the candidate has artist,
-- subgenre, tags, bpm and year all disjoint from the single liked song (and
-- there are no disliked songs and no seed), the jitter draw is 0, yet the
-- score is 1/2 = BPM_WEIGHT + ERA_WEIGHT, outside [0, 0.1): the BPM 121 is
-- within tolerance 8 of the liked mean 120 and the year 2001 is within
-- tolerance 5 of the liked mean 2000 although both values are disjoint.
unseal Rat.add Rat.mul Rat.inv Rat.sub in
theorem baseline_score_bound_cex :
    ((⟨1, "t", "a", "x", 2001, "p", some 121⟩ : Song).artist
        ≠ (⟨2, "u", "b", "y", 2000, "q", some 120⟩ : Song).artist)
    ∧ ((⟨1, "t", "a", "x", 2001, "p", some 121⟩ : Song).subgenre
        ≠ (⟨2, "u", "b", "y", 2000, "q", some 120⟩ : Song).subgenre)
    ∧ songTags (⟨1, "t", "a", "x", 2001, "p", some 121⟩ : Song).tags
        ∩ songTags (⟨2, "u", "b", "y", 2000, "q", some 120⟩ : Song).tags = ∅
    ∧ ((⟨1, "t", "a", "x", 2001, "p", some 121⟩ : Song).bpm
        ≠ (⟨2, "u", "b", "y", 2000, "q", some 120⟩ : Song).bpm)
    ∧ ((⟨1, "t", "a", "x", 2001, "p", some 121⟩ : Song).year
        ≠ (⟨2, "u", "b", "y", 2000, "q", some 120⟩ : Song).year)
    ∧ score_song defaultConfig (⟨1, "t", "a", "x", 2001, "p", some 121⟩ : Song)
        [⟨2, "u", "b", "y", 2000, "q", some 120⟩] [] none 0 = 1/2
    ∧ ¬ (score_song defaultConfig (⟨1, "t", "a", "x", 2001, "p", some 121⟩ : Song)
        [⟨2, "u", "b", "y", 2000, "q", some 120⟩] [] none 0 < 1/10) := by
  decide

/-- C9 (amended). Missing-attribute handling in scoring: a candidate with no
BPM, or no liked song with a truthy BPM, contributes 0 through the BPM term;
an empty tags string yields the empty tag set (not a set holding the empty
string), so the tag term contributes 0; but a candidate row with no year is
not excluded from the era term: when at least one liked song exists the code
subtracts the mean from the missing year and the evaluation fails (a Python
`TypeError`) instead of contributing 0; only with no liked songs at all does
the era term contribute 0. -/
theorem missing_attribute_scoring (cfg : Config) (song : SongRow) (liked : List SongRow) :
    (song.bpm = none → bpmTermRow cfg song liked = 0)
    ∧ (likedBpmsRow liked = [] → bpmTermRow cfg song liked = 0)
    ∧ (songTags "" = ∅)
    ∧ (song.tags = "" → tagTermRow cfg song liked = 0)
    ∧ (song.year = none → liked ≠ [] → eraTermRow cfg song liked = none)
    ∧ (song.year = none → liked = [] → eraTermRow cfg song liked = some 0) := by
  refine ⟨?_, ?_, rfl, ?_, ?_, ?_⟩
  · intro h
    unfold bpmTermRow
    rw [if_neg]
    intro hc
    rw [h] at hc
    exact Bool.false_ne_true hc.1
  · intro h
    unfold bpmTermRow
    split_ifs with h1 h2 h3
    · exact absurd h h2
    · rfl
    · rfl
    · rfl
  · intro h
    unfold tagTermRow
    apply List.sum_eq_zero
    intro x hx
    obtain ⟨l, hl, rfl⟩ := List.mem_map.mp hx
    rw [h]
    show ((songTags "" ∩ songTags l.tags).card : ℚ) * cfg.TAG_WEIGHT = 0
    rw [show songTags "" = ∅ from rfl]
    simp
  · intro hy hl
    unfold eraTermRow
    rw [if_neg hl]
    cases hmap : liked.mapM (fun s => s.year) <;> simp [hy, hmap]
  · intro hy hl
    rw [hl]
    rfl

/-- C9 witness for the amended statement: a concrete row with no BPM, empty
tags and no year against one liked row; the BPM and tag terms are 0 and the
era term fails. -/
theorem missing_attribute_scoring_witness :
    bpmTermRow defaultConfig (⟨1, "t", "a", "x", none, "", none⟩ : SongRow)
        [⟨2, "u", "b", "y", some 2000, "q", some 120⟩] = 0
    ∧ tagTermRow defaultConfig (⟨1, "t", "a", "x", none, "", none⟩ : SongRow)
        [⟨2, "u", "b", "y", some 2000, "q", some 120⟩] = 0
    ∧ eraTermRow defaultConfig (⟨1, "t", "a", "x", none, "", none⟩ : SongRow)
        [⟨2, "u", "b", "y", some 2000, "q", some 120⟩] = none :=
  ⟨(missing_attribute_scoring defaultConfig ⟨1, "t", "a", "x", none, "", none⟩
      [⟨2, "u", "b", "y", some 2000, "q", some 120⟩]).1 rfl,
    (missing_attribute_scoring defaultConfig ⟨1, "t", "a", "x", none, "", none⟩
      [⟨2, "u", "b", "y", some 2000, "q", some 120⟩]).2.2.2.1 rfl,
    (missing_attribute_scoring defaultConfig ⟨1, "t", "a", "x", none, "", none⟩
      [⟨2, "u", "b", "y", some 2000, "q", some 120⟩]).2.2.2.2.1 rfl (by decide)⟩

/-- C9 counterexample against the claim as stated: a concrete candidate row
with no year, scored against one liked row: the era term does not contribute 0
but fails, and with it the whole scoring call fails. -/
theorem missing_attribute_scoring_cex :
    (⟨1, "t", "a", "x", none, "", none⟩ : SongRow).year = none
    ∧ eraTermRow defaultConfig (⟨1, "t", "a", "x", none, "", none⟩ : SongRow)
        [⟨2, "u", "b", "y", some 2000, "q", some 120⟩] = none
    ∧ score_songRow defaultConfig (⟨1, "t", "a", "x", none, "", none⟩ : SongRow)
        [⟨2, "u", "b", "y", some 2000, "q", some 120⟩] [] 0 = none :=
  ⟨rfl, rfl, rfl⟩

/-- The rated songs are the complement filter of the unrated songs. -/
lemma ratedSongs_eq_not_filter (all_songs : List Song) (rated_song_ids : List Int) :
    ratedSongs all_songs rated_song_ids
      = all_songs.filter (fun s => !(decide (s.id ∉ rated_song_ids))) := by
  unfold ratedSongs
  apply List.filter_congr
  intro x hx
  simp

/-- Unrated and rated songs together are a permutation of all songs. -/
lemma unrated_rated_perm (all_songs : List Song) (rated_song_ids : List Int) :
    (unratedSongs all_songs rated_song_ids ++ ratedSongs all_songs rated_song_ids).Perm
      all_songs := by
  rw [ratedSongs_eq_not_filter]
  exact List.filter_append_perm _ all_songs

/-- C7. Quiz sampling: with fewer total songs than requested the call fails
(the `InsufficientData` condition, a raised `ValueError`) and returns no
partial result; otherwise it returns exactly `n` songs with distinct ids,
drawn from the unrated songs when enough exist, and otherwise all unrated
songs followed by a draw without replacement of exactly the missing number
from the rated songs. Distinctness presupposes pairwise distinct ids in the
song table; the uniformity of the draws is carried by the `random.sample`
oracle. -/
theorem quiz_sampling (all_songs : List Song) (rated_song_ids : List Int) (n : ℕ)
    (sample : List Song → ℕ → List Song)
    (hnd : (all_songs.map (fun s => s.id)).Nodup) (hsamp : IsSampler sample) :
    (all_songs.length < n →
      get_quiz_songs all_songs rated_song_ids n sample
        = .error ("Not enough songs in database"))
    ∧ (n ≤ all_songs.length →
      ∃ l, get_quiz_songs all_songs rated_song_ids n sample = .ok l
        ∧ l.length = n
        ∧ ((l.map (fun s => s.id)).Nodup)
        ∧ (n ≤ (unratedSongs all_songs rated_song_ids).length →
            l.Subperm (unratedSongs all_songs rated_song_ids))
        ∧ ((unratedSongs all_songs rated_song_ids).length < n →
            ∃ r, l = unratedSongs all_songs rated_song_ids ++ r
              ∧ r.Subperm (ratedSongs all_songs rated_song_ids)
              ∧ r.length = n - (unratedSongs all_songs rated_song_ids).length)) := by
  have hpart : (unratedSongs all_songs rated_song_ids).length
      + (ratedSongs all_songs rated_song_ids).length = all_songs.length := by
    have h := (unrated_rated_perm all_songs rated_song_ids).length_eq
    rw [List.length_append] at h
    exact h
  constructor
  · intro hlt
    unfold get_quiz_songs
    rw [if_pos hlt]
  · intro hge
    unfold get_quiz_songs
    rw [if_neg (by omega)]
    by_cases hu : (unratedSongs all_songs rated_song_ids).length < n
    · rw [if_pos hu]
      have hk : min (n - (unratedSongs all_songs rated_song_ids).length)
          (ratedSongs all_songs rated_song_ids).length
          = n - (unratedSongs all_songs rated_song_ids).length := by omega
      have hkle : min (n - (unratedSongs all_songs rated_song_ids).length)
          (ratedSongs all_songs rated_song_ids).length
          ≤ (ratedSongs all_songs rated_song_ids).length := min_le_right _ _
      obtain ⟨hslen, hssub⟩ := hsamp (ratedSongs all_songs rated_song_ids) _ hkle
      refine ⟨_, rfl, ?_, ?_, ?_, ?_⟩
      · rw [List.length_append, hslen, hk]
        omega
      · have hsub : (unratedSongs all_songs rated_song_ids
            ++ sample (ratedSongs all_songs rated_song_ids)
              (min (n - (unratedSongs all_songs rated_song_ids).length)
                (ratedSongs all_songs rated_song_ids).length)).Subperm all_songs :=
          (subperm_append_grow _ hssub).trans
            (unrated_rated_perm all_songs rated_song_ids).subperm
        exact nodup_of_subperm (subperm_map_of_subperm (fun s => s.id) hsub) hnd
      · intro hc
        omega
      · intro _
        exact ⟨_, rfl, hssub, by rw [hslen, hk]⟩
    · rw [if_neg hu]
      have hnu : n ≤ (unratedSongs all_songs rated_song_ids).length := by omega
      obtain ⟨hslen, hssub⟩ := hsamp (unratedSongs all_songs rated_song_ids) n hnu
      refine ⟨_, rfl, hslen, ?_, ?_, ?_⟩
      · have hsub : (sample (unratedSongs all_songs rated_song_ids) n).Subperm all_songs :=
          hssub.trans (List.filter_sublist all_songs).subperm
        exact nodup_of_subperm (subperm_map_of_subperm (fun s => s.id) hsub) hnd
      · intro _
        exact hssub
      · intro hc
        omega

/-- C7 witness: seven concrete songs, two of them rated, with n = 6: the call
succeeds with all five unrated songs plus exactly one rated song, six distinct
ids in total; the general theorem also covers the failure branch. -/
theorem quiz_sampling_witness :
    6 ≤ ([⟨1, "", "", "", 0, "", none⟩, ⟨2, "", "", "", 0, "", none⟩,
        ⟨3, "", "", "", 0, "", none⟩, ⟨4, "", "", "", 0, "", none⟩,
        ⟨5, "", "", "", 0, "", none⟩, ⟨6, "", "", "", 0, "", none⟩,
        ⟨7, "", "", "", 0, "", none⟩] : List Song).length
    ∧ ∃ l, get_quiz_songs [⟨1, "", "", "", 0, "", none⟩, ⟨2, "", "", "", 0, "", none⟩,
        ⟨3, "", "", "", 0, "", none⟩, ⟨4, "", "", "", 0, "", none⟩,
        ⟨5, "", "", "", 0, "", none⟩, ⟨6, "", "", "", 0, "", none⟩,
        ⟨7, "", "", "", 0, "", none⟩] [6, 7] 6 takeSampler = .ok l
      ∧ l.length = 6
      ∧ ((l.map (fun s => s.id)).Nodup)
      ∧ (6 ≤ (unratedSongs [⟨1, "", "", "", 0, "", none⟩, ⟨2, "", "", "", 0, "", none⟩,
          ⟨3, "", "", "", 0, "", none⟩, ⟨4, "", "", "", 0, "", none⟩,
          ⟨5, "", "", "", 0, "", none⟩, ⟨6, "", "", "", 0, "", none⟩,
          ⟨7, "", "", "", 0, "", none⟩] [6, 7]).length →
          l.Subperm (unratedSongs [⟨1, "", "", "", 0, "", none⟩,
            ⟨2, "", "", "", 0, "", none⟩, ⟨3, "", "", "", 0, "", none⟩,
            ⟨4, "", "", "", 0, "", none⟩, ⟨5, "", "", "", 0, "", none⟩,
            ⟨6, "", "", "", 0, "", none⟩, ⟨7, "", "", "", 0, "", none⟩] [6, 7]))
      ∧ ((unratedSongs [⟨1, "", "", "", 0, "", none⟩, ⟨2, "", "", "", 0, "", none⟩,
          ⟨3, "", "", "", 0, "", none⟩, ⟨4, "", "", "", 0, "", none⟩,
          ⟨5, "", "", "", 0, "", none⟩, ⟨6, "", "", "", 0, "", none⟩,
          ⟨7, "", "", "", 0, "", none⟩] [6, 7]).length < 6 →
          ∃ r, l = unratedSongs [⟨1, "", "", "", 0, "", none⟩,
              ⟨2, "", "", "", 0, "", none⟩, ⟨3, "", "", "", 0, "", none⟩,
              ⟨4, "", "", "", 0, "", none⟩, ⟨5, "", "", "", 0, "", none⟩,
              ⟨6, "", "", "", 0, "", none⟩, ⟨7, "", "", "", 0, "", none⟩] [6, 7] ++ r
            ∧ r.Subperm (ratedSongs [⟨1, "", "", "", 0, "", none⟩,
              ⟨2, "", "", "", 0, "", none⟩, ⟨3, "", "", "", 0, "", none⟩,
              ⟨4, "", "", "", 0, "", none⟩, ⟨5, "", "", "", 0, "", none⟩,
              ⟨6, "", "", "", 0, "", none⟩, ⟨7, "", "", "", 0, "", none⟩] [6, 7])
            ∧ r.length = 6 - (unratedSongs [⟨1, "", "", "", 0, "", none⟩,
              ⟨2, "", "", "", 0, "", none⟩, ⟨3, "", "", "", 0, "", none⟩,
              ⟨4, "", "", "", 0, "", none⟩, ⟨5, "", "", "", 0, "", none⟩,
              ⟨6, "", "", "", 0, "", none⟩, ⟨7, "", "", "", 0, "", none⟩] [6, 7]).length) :=
  ⟨by decide,
    (quiz_sampling [⟨1, "", "", "", 0, "", none⟩, ⟨2, "", "", "", 0, "", none⟩,
        ⟨3, "", "", "", 0, "", none⟩, ⟨4, "", "", "", 0, "", none⟩,
        ⟨5, "", "", "", 0, "", none⟩, ⟨6, "", "", "", 0, "", none⟩,
        ⟨7, "", "", "", 0, "", none⟩] [6, 7] 6 takeSampler (by decide)
      isSampler_takeSampler).2 (by decide)⟩

/-- One `save_feedback` call, starting from at most one row for the pair,
leaves exactly one row for the pair, carrying the new `liked` value. -/
lemma save_feedback_pair_filter (db : FeedbackTable) (u s : Int) (v : Bool)
    (h : (db.rows.filter (matchesPair u s)).length ≤ 1) :
    ∃ i, (save_feedback db u s v).rows.filter (matchesPair u s) = [⟨i, u, s, v⟩] := by
  unfold save_feedback
  cases hfind : db.rows.find? (matchesPair u s) with
  | none =>
      have hempty : db.rows.filter (matchesPair u s) = [] := by
        rw [List.filter_eq_nil_iff]
        exact fun a ha => List.find?_eq_none.mp hfind a ha
      refine ⟨db.next_id, ?_⟩
      show (db.rows ++ [(⟨db.next_id, u, s, v⟩ : FeedbackRow)]).filter (matchesPair u s)
        = [(⟨db.next_id, u, s, v⟩ : FeedbackRow)]
      rw [List.filter_append, hempty, List.nil_append,
        List.filter_cons_of_pos (by simp [matchesPair])]
      rfl
  | some ex =>
      have hpex : matchesPair u s ex = true := List.find?_some hfind
      have hmemex : ex ∈ db.rows := List.mem_of_find?_eq_some hfind
      have hexf : db.rows.filter (matchesPair u s) = [ex] :=
        eq_singleton_of_length_le_one h (List.mem_filter.mpr ⟨hmemex, hpex⟩)
      have hpresf : ∀ r : FeedbackRow,
          (matchesPair u s)
              ((fun q => if q.id == ex.id then { q with liked := v } else q) r)
            = matchesPair u s r := by
        intro r
        by_cases hid : (r.id == ex.id) = true
        · simp only [if_pos hid]
          rfl
        · simp only [if_neg hid]
      have hu2 : ex.user_id = u ∧ ex.song_id = s := by
        unfold matchesPair at hpex
        rw [Bool.and_eq_true] at hpex
        exact ⟨beq_iff_eq.mp hpex.1, beq_iff_eq.mp hpex.2⟩
      refine ⟨ex.id, ?_⟩
      show (db.rows.map
        (fun r => if r.id == ex.id then { r with liked := v } else r)).filter
          (matchesPair u s) = [(⟨ex.id, u, s, v⟩ : FeedbackRow)]
      have hcongr : List.filter ((matchesPair u s) ∘ (fun r : FeedbackRow =>
            if r.id == ex.id then { r with liked := v } else r)) db.rows
          = List.filter (matchesPair u s) db.rows :=
        List.filter_congr (fun x _ => hpresf x)
      rw [List.filter_map, hcongr, hexf]
      show [if ex.id == ex.id then { ex with liked := v } else ex]
        = [(⟨ex.id, u, s, v⟩ : FeedbackRow)]
      rw [if_pos (by simp)]
      obtain ⟨h1, h2⟩ := hu2
      cases ex
      simp_all

/-- When a row for the pair exists, `save_feedback` updates in place and the
number of rows is unchanged. -/
lemma save_feedback_update_length (db1 : FeedbackTable) (u s : Int) (v : Bool)
    (row : FeedbackRow) (hf : db1.rows.filter (matchesPair u s) = [row]) :
    (save_feedback db1 u s v).rows.length = db1.rows.length := by
  unfold save_feedback
  cases hfind : db1.rows.find? (matchesPair u s) with
  | none =>
      exfalso
      have hmem : row ∈ db1.rows.filter (matchesPair u s) := by
        rw [hf]
        exact List.mem_singleton_self _
      obtain ⟨hm, hp⟩ := List.mem_filter.mp hmem
      exact (List.find?_eq_none.mp hfind row hm) hp
  | some ex =>
      show (db1.rows.map _).length = _
      rw [List.length_map]

/-- C8. Feedback upsert idempotence and uniqueness: starting from a table with
at most one feedback row for the pair `(u, s)`, calling `save_feedback` twice
with value `v` leaves exactly one row for the pair, its `liked` value is `v`,
and the second call overwrites in place (the table does not grow). -/
theorem feedback_upsert (db : FeedbackTable) (u s : Int) (v : Bool)
    (h : (db.rows.filter (matchesPair u s)).length ≤ 1) :
    ((save_feedback (save_feedback db u s v) u s v).rows.filter
        (matchesPair u s)).length = 1
    ∧ ((save_feedback (save_feedback db u s v) u s v).rows.filter
        (matchesPair u s)).map (fun r => r.liked) = [v]
    ∧ (save_feedback (save_feedback db u s v) u s v).rows.length
        = (save_feedback db u s v).rows.length := by
  obtain ⟨i1, hf1⟩ := save_feedback_pair_filter db u s v h
  have h1 : ((save_feedback db u s v).rows.filter (matchesPair u s)).length ≤ 1 := by
    rw [hf1]
    exact Nat.le_refl 1
  obtain ⟨i2, hf2⟩ := save_feedback_pair_filter (save_feedback db u s v) u s v h1
  refine ⟨by rw [hf2]; rfl, by rw [hf2]; rfl, ?_⟩
  exact save_feedback_update_length _ u s v _ hf1

/-- C8 witness: recording `liked = true` twice for the pair `(1, 2)` in the
empty table leaves exactly one row with `liked = true`. -/
theorem feedback_upsert_witness :
    ((save_feedback (save_feedback ⟨[], 1⟩ 1 2 true) 1 2 true).rows.filter
        (matchesPair 1 2)).length = 1
    ∧ ((save_feedback (save_feedback ⟨[], 1⟩ 1 2 true) 1 2 true).rows.filter
        (matchesPair 1 2)).map (fun r => r.liked) = [true]
    ∧ (save_feedback (save_feedback ⟨[], 1⟩ 1 2 true) 1 2 true).rows.length
        = (save_feedback ⟨[], 1⟩ 1 2 true).rows.length :=
  feedback_upsert ⟨[], 1⟩ 1 2 true (by decide)

/-- Only the fully empty tags string maps to the empty tag set: a split never
returns an empty list of segments. -/
lemma songTags_eq_empty_iff (s : String) : songTags s = ∅ ↔ s = "" := by
  constructor
  · intro h
    by_contra hs
    unfold songTags at h
    rw [if_neg hs, List.toFinset_eq_empty_iff] at h
    simp only [List.splitOn] at h
    exact List.splitOnP_ne_nil _ _ h
  · intro h
    rw [h]
    rfl

/-- C10. Phantom empty-string tag: tag sets are built by splitting on the
separator without discarding empty segments, so when the tags strings of a
candidate and of a liked song are both non-empty and both contain an empty
segment (for example both end in the separator or contain it twice in a row),
the empty string is a shared tag and the tag-overlap term of that pair
contributes at least `TAG_WEIGHT`; and the empty tag set arises exactly from
the fully empty tags string. -/
theorem phantom_empty_tag (cfg : Config) (song l : Song) (c : String)
    (hs : song.tags ≠ "") (hl : l.tags ≠ "")
    (hes : [] ∈ song.tags.toList.splitOn ';') (hel : [] ∈ l.tags.toList.splitOn ';')
    (hW : 0 ≤ cfg.TAG_WEIGHT) :
    ([] ∈ songTags song.tags ∩ songTags l.tags)
    ∧ cfg.TAG_WEIGHT ≤ tagTerm cfg song [l]
    ∧ (songTags c = ∅ ↔ c = "") := by
  have hmem : ([] : List Char) ∈ songTags song.tags ∩ songTags l.tags := by
    rw [Finset.mem_inter]
    constructor
    · unfold songTags
      rw [if_neg hs]
      exact List.mem_toFinset.mpr hes
    · unfold songTags
      rw [if_neg hl]
      exact List.mem_toFinset.mpr hel
  refine ⟨hmem, ?_, songTags_eq_empty_iff c⟩
  unfold tagTerm
  rw [List.map_cons, List.map_nil, List.sum_cons, List.sum_nil, add_zero]
  have hcard : 1 ≤ ((songTags song.tags ∩ songTags l.tags).card : ℚ) := by
    have h1 : 0 < (songTags song.tags ∩ songTags l.tags).card :=
      Finset.card_pos.mpr ⟨[], hmem⟩
    exact_mod_cast h1
  calc cfg.TAG_WEIGHT = 1 * cfg.TAG_WEIGHT := (one_mul _).symm
    _ ≤ ((songTags song.tags ∩ songTags l.tags).card : ℚ) * cfg.TAG_WEIGHT :=
        mul_le_mul_of_nonneg_right hcard hW

-- C10 witness: concrete tags strings with trailing and doubled separators;
-- the empty segment is a shared tag and the pair contributes at least the
-- tag weight.
unseal Rat.add Rat.mul Rat.inv Rat.sub in
theorem phantom_empty_tag_witness :
    ([] ∈ songTags (⟨1, "t", "a", "x", 2000, "p;", none⟩ : Song).tags
        ∩ songTags (⟨2, "u", "b", "y", 2000, "q;;r", none⟩ : Song).tags)
    ∧ defaultConfig.TAG_WEIGHT
        ≤ tagTerm defaultConfig (⟨1, "t", "a", "x", 2000, "p;", none⟩ : Song)
          [⟨2, "u", "b", "y", 2000, "q;;r", none⟩]
    ∧ (songTags "w" = ∅ ↔ "w" = "") :=
  phantom_empty_tag defaultConfig ⟨1, "t", "a", "x", 2000, "p;", none⟩
    ⟨2, "u", "b", "y", 2000, "q;;r", none⟩ "w"
    (by decide) (by decide) (by decide) (by decide) (by decide)
